import Mathlib

/-!
Shallow embedding of the mousepad widget (src/mousepad/mousepad.c), a mouse
event GUI external for Pure Data, with proofs about its color codec, its
pixel-rectangle layout, its event callbacks, its settings mutators and its
lifecycle hooks.

Modelling conventions:

* C `int` values are modelled as `Int`; C `/` on `int` is `Int.tdiv`
  (truncation toward zero).  Where the code masks to 24 bits the model
  reduces modulo `2 ^ 24` explicitly.
* Pd symbols are interned strings; the model uses `String`.  The global
  empty symbol `&s_` is the empty string, and the constant selector symbols
  created by `gensym` in `mousepad_setup` are string constants below.
* `t_atom` is modelled as float-or-symbol; float atoms carry the integral
  values relevant to the claims (all casts `(int)f` in the code are then the
  identity).
* Host services are parameters: `canvas_realizedollar` is a function
  parameter `rd`, the bound-ness of a symbol's `s_thing` is a predicate
  `thing`, `glist_isvisible` is a boolean `visible`, and `text_xpix` /
  `text_ypix` return `te_xpix` / `te_ypix` (the parent offset of a toplevel
  canvas is zero).
* Drawing calls (`sys_vgui` via `draw_rect` etc.) are recorded as a list of
  `GuiCmd` values; outlet and send-channel output (`outlet_anything` /
  `typedmess`) is recorded as a list of `Msg` values, in emission order.
* `pd_bind` / `pd_unbind` maintain the multiset of names bound by this
  object, modelled as a `List String` (bind conses, unbind erases one
  occurrence, as Pd's binding of the same `t_pd` can nest).
-/

-- ---------------------------------------------------------------------------
-- constants from the top of mousepad.c (IOWIDTH is from the host header
-- g_canvas.h, where it is 7)

def COLOR_SELECTED : Nat := 0x0000FF

def COLOR_NORMAL : Nat := 0x000000

def DEFCOLOR : Nat := 0xDDDDDD

def DEFSIZE : Int := 64

def DEFZOOM : Int := 1

def IOHEIGHT : Int := 3

def IOWIDTH : Int := 7

def BASE : Nat := 1

def INLET : Nat := 2

def OUTLET : Nat := 4

/-- The global null symbol `&s_`, whose name is the empty string. -/
def s_ : String := ""

-- the constant symbols interned in mousepad_setup
def symEmpty : String := "empty"

def symSize : String := "size"

def symColor : String := "color"

def symPos : String := "pos"

def symZoom : String := "zoom"

def symNames : String := "names"

def symButton : String := "button"

def symDrag : String := "drag"

def symHover : String := "hover"

def symDeltas : String := "deltas"

-- ---------------------------------------------------------------------------
-- color codec (utility functions in mousepad.c)

/-- ASCII character produced for one nibble in `int2hexcolor`:
`if(nibble < 10) hexcolor[i] = nibble + 48; else hexcolor[i] = nibble + 55`. -/
def nibbleChar (nibble : Nat) : Char :=
  if nibble < 10 then Char.ofNat (nibble + 48) else Char.ofNat (nibble + 55)

/-- `int2hexcolor`: web color string of 6 hex digits with prefix '#'
(the terminating NUL of the C string is implicit in the `String` model).
The 6-iteration loop is unrolled; `nibblemask` starts at `0xF00000` and is
shifted right by 4 each iteration while `j` runs from 5 down to 0, so
iteration `i` emits `nibbleChar ((intcolor & nibblemask) >> (4*j))`. -/
def int2hexcolor (intcolor : Nat) : String :=
  String.mk
    [Char.ofNat 35,
     nibbleChar ((intcolor &&& 0xF00000) >>> 20),
     nibbleChar ((intcolor &&& 0x0F0000) >>> 16),
     nibbleChar ((intcolor &&& 0x00F000) >>> 12),
     nibbleChar ((intcolor &&& 0x000F00) >>> 8),
     nibbleChar ((intcolor &&& 0x0000F0) >>> 4),
     nibbleChar ((intcolor &&& 0x00000F) >>> 0)]

/-- Byte `s_name[i]` of a C string: the i-th character's code, and 0 (the
terminating NUL) at or past the end. -/
def cstr (s : String) (i : Nat) : Nat :=
  (s.data.getD i (Char.ofNat 0)).toNat

/-- Digit value assigned to `intbuf[i]` in `hexcolor2int`: 0 till 9, A till F
and a till f; any other character leaves the zero initializer in place. -/
def hexDigitVal (h : Nat) : Nat :=
  if 48 ≤ h ∧ h ≤ 57 then h - 48
  else if 65 ≤ h ∧ h ≤ 70 then h - 55
  else if 97 ≤ h ∧ h ≤ 102 then h - 87
  else 0

/-- The for-loop of `hexcolor2int`: read `hexcolor[i+1]` for `i = 0..5`,
breaking at the first NUL (`if(!h) break`), and convert each character read
to its digit value.  The length of this list is the value of `i` after the
loop. -/
def intbufRead (s : String) : List Nat :=
  (((List.range 6).map (fun i => cstr s (i + 1))).takeWhile (fun h => h != 0)).map
    hexDigitVal

/-- `hexcolor2int`: symbol to int conversion for web color names with 3 or 6
hex digits.  `intbuf` is zero-initialized, so entries past the break keep 0.
If exactly 3 hex digits were found the buffer `{d0,d1,d2,0,0,0}` is
'up-sample-and-hold'-ed to `{d0,d0,d1,d1,d2,d2}` (the three assignment lines
in the C code), and the final loop folds the six entries into one integer
with `intcolor <<= 4; intcolor += intbuf[i]`. -/
def hexcolor2int (s : String) : Nat :=
  let ds := intbufRead s
  let buf : Nat → Nat := fun i => ds.getD i 0
  let buf6 : List Nat :=
    if ds.length = 3 then
      [buf 0, buf 0, buf 1, buf 1, buf 2, buf 2]
    else
      [buf 0, buf 1, buf 2, buf 3, buf 4, buf 5]
  buf6.foldl (fun intcolor d => intcolor * 16 + d) 0

-- ---------------------------------------------------------------------------
-- helper lemmas about the codec

theorem mask_shift_eq (c k : Nat) : (c &&& (15 <<< k)) >>> k = c / 2 ^ k % 16 := by
  have h1 : (c &&& (15 <<< k)) >>> k = (c >>> k) &&& 15 := by
    apply Nat.eq_of_testBit_eq
    intro j
    simp only [Nat.testBit_shiftRight, Nat.testBit_and, Nat.testBit_shiftLeft]
    have hk : k ≤ k + j := Nat.le_add_right k j
    simp [hk, Nat.add_sub_cancel_left]
  rw [h1, show (15 : Nat) = 2 ^ 4 - 1 from rfl, Nat.and_pow_two_sub_one_eq_mod,
    Nat.shiftRight_eq_div_pow]

set_option maxHeartbeats 1000000 in
theorem hexDigitVal_nibbleChar : ∀ n < 16, hexDigitVal (nibbleChar n).toNat = n := by
  decide

set_option maxHeartbeats 1000000 in
theorem nibbleChar_toNat_ne_zero : ∀ n < 16, ((nibbleChar n).toNat != 0) = true := by
  decide

set_option maxHeartbeats 2000000 in
/-- Round trip: parsing the '#'-prefixed 6-digit string produced by
`int2hexcolor` gives back the original 24-bit integer. -/
theorem hexcolor2int_int2hexcolor (c : Nat) (hc : c < 0x1000000) :
    hexcolor2int (int2hexcolor c) = c := by
  have e20 : (c &&& 0xF00000) >>> 20 = c / 2 ^ 20 % 16 := by
    have h := mask_shift_eq c 20; norm_num [Nat.shiftLeft_eq] at h; exact h
  have e16 : (c &&& 0x0F0000) >>> 16 = c / 2 ^ 16 % 16 := by
    have h := mask_shift_eq c 16; norm_num [Nat.shiftLeft_eq] at h; exact h
  have e12 : (c &&& 0x00F000) >>> 12 = c / 2 ^ 12 % 16 := by
    have h := mask_shift_eq c 12; norm_num [Nat.shiftLeft_eq] at h; exact h
  have e8 : (c &&& 0x000F00) >>> 8 = c / 2 ^ 8 % 16 := by
    have h := mask_shift_eq c 8; norm_num [Nat.shiftLeft_eq] at h; exact h
  have e4 : (c &&& 0x0000F0) >>> 4 = c / 2 ^ 4 % 16 := by
    have h := mask_shift_eq c 4; norm_num [Nat.shiftLeft_eq] at h; exact h
  have e0 : (c &&& 0x00000F) >>> 0 = c % 16 := by
    have h := mask_shift_eq c 0; norm_num [Nat.shiftLeft_eq] at h
    simpa using h
  have hlt : ∀ k : Nat, c / 2 ^ k % 16 < 16 := fun k => Nat.mod_lt _ (by norm_num)
  have hlt0 : c % 16 < 16 := Nat.mod_lt _ (by norm_num)
  unfold int2hexcolor
  rw [e20, e16, e12, e8, e4, e0]
  generalize h5 : c / 2 ^ 20 % 16 = n5 at *
  generalize h4 : c / 2 ^ 16 % 16 = n4 at *
  generalize h3 : c / 2 ^ 12 % 16 = n3 at *
  generalize h2 : c / 2 ^ 8 % 16 = n2 at *
  generalize h1 : c / 2 ^ 4 % 16 = n1 at *
  generalize h0 : c % 16 = n0 at *
  have l5 : n5 < 16 := h5 ▸ hlt 20
  have l4 : n4 < 16 := h4 ▸ hlt 16
  have l3 : n3 < 16 := h3 ▸ hlt 12
  have l2 : n2 < 16 := h2 ▸ hlt 8
  have l1 : n1 < 16 := h1 ▸ hlt 4
  have l0 : n0 < 16 := hlt0
  have hbuf : intbufRead (String.mk
      [Char.ofNat 35, nibbleChar n5, nibbleChar n4, nibbleChar n3, nibbleChar n2,
       nibbleChar n1, nibbleChar n0]) = [n5, n4, n3, n2, n1, n0] := by
    unfold intbufRead cstr
    rw [show List.range 6 = [0, 1, 2, 3, 4, 5] from rfl]
    simp only [List.map_cons, List.map_nil, List.getD, String.data]
    simp only [List.get?, Option.getD]
    rw [List.takeWhile_cons_of_pos (by simp [nibbleChar_toNat_ne_zero n5 l5]),
      List.takeWhile_cons_of_pos (by simp [nibbleChar_toNat_ne_zero n4 l4]),
      List.takeWhile_cons_of_pos (by simp [nibbleChar_toNat_ne_zero n3 l3]),
      List.takeWhile_cons_of_pos (by simp [nibbleChar_toNat_ne_zero n2 l2]),
      List.takeWhile_cons_of_pos (by simp [nibbleChar_toNat_ne_zero n1 l1]),
      List.takeWhile_cons_of_pos (by simp [nibbleChar_toNat_ne_zero n0 l0])]
    simp [hexDigitVal_nibbleChar n5 l5, hexDigitVal_nibbleChar n4 l4,
      hexDigitVal_nibbleChar n3 l3, hexDigitVal_nibbleChar n2 l2,
      hexDigitVal_nibbleChar n1 l1, hexDigitVal_nibbleChar n0 l0]
  unfold hexcolor2int
  rw [hbuf]
  simp only [List.length_cons, List.length_nil, List.getD, List.get?, Option.getD,
    List.foldl]
  norm_num
  subst h5 h4 h3 h2 h1 h0
  norm_num at hc ⊢
  omega

/-- A character code that `hexcolor2int` recognizes as a hex digit:
0 till 9, A till F, or a till f. -/
def isHexDigitCode (h : Nat) : Prop :=
  (48 ≤ h ∧ h ≤ 57) ∨ (65 ≤ h ∧ h ≤ 70) ∨ (97 ≤ h ∧ h ≤ 102)

instance decIsHexDigitCode (h : Nat) : Decidable (isHexDigitCode h) := by
  unfold isHexDigitCode
  infer_instance

/-- C1: for every integer c with 0 ≤ c ≤ 0xFFFFFF, parsing with hexcolor2int
the 7-character '#'-prefixed string produced by int2hexcolor(c) returns
exactly c: the color codec's two conversions form a round trip on 24-bit
colors. -/
theorem claim_C1_roundtrip (c : Nat) (hc : c ≤ 0xFFFFFF) :
    hexcolor2int (int2hexcolor c) = c :=
  hexcolor2int_int2hexcolor c (by omega)

theorem claim_C1_roundtrip_witness :
    0xA1B2C3 ≤ 0xFFFFFF ∧ hexcolor2int (int2hexcolor 0xA1B2C3) = 0xA1B2C3 :=
  ⟨by norm_num, claim_C1_roundtrip 0xA1B2C3 (by norm_num)⟩

set_option maxHeartbeats 2000000 in
/-- C9: a shorthand webcolor string of exactly 3 hex digits parses to the
24-bit integer whose six nibbles, most significant first, are d0 d0 d1 d1
d2 d2, which is also what the corresponding 6-digit full form parses to. -/
theorem claim_C9_shorthand (d0 d1 d2 : Char)
    (h0 : isHexDigitCode d0.toNat) (h1 : isHexDigitCode d1.toNat)
    (h2 : isHexDigitCode d2.toNat) :
    hexcolor2int (String.mk [Char.ofNat 35, d0, d1, d2]) =
      hexDigitVal d0.toNat * 0x110000 + hexDigitVal d1.toNat * 0x1100 +
        hexDigitVal d2.toNat * 0x11 ∧
    hexcolor2int (String.mk [Char.ofNat 35, d0, d1, d2]) =
      hexcolor2int (String.mk [Char.ofNat 35, d0, d0, d1, d1, d2, d2]) := by
  have hn0 : (d0.toNat != 0) = true := by
    rcases h0 with ⟨a, b⟩ | ⟨a, b⟩ | ⟨a, b⟩ <;> simp <;> omega
  have hn1 : (d1.toNat != 0) = true := by
    rcases h1 with ⟨a, b⟩ | ⟨a, b⟩ | ⟨a, b⟩ <;> simp <;> omega
  have hn2 : (d2.toNat != 0) = true := by
    rcases h2 with ⟨a, b⟩ | ⟨a, b⟩ | ⟨a, b⟩ <;> simp <;> omega
  have hz : (Char.ofNat 0).toNat = 0 := rfl
  have hbuf3 : intbufRead (String.mk [Char.ofNat 35, d0, d1, d2]) =
      [hexDigitVal d0.toNat, hexDigitVal d1.toNat, hexDigitVal d2.toNat] := by
    unfold intbufRead cstr
    rw [show List.range 6 = [0, 1, 2, 3, 4, 5] from rfl]
    simp only [List.map_cons, List.map_nil, String.data, List.getD, List.get?,
      Option.getD]
    rw [List.takeWhile_cons_of_pos (by simp [hn0]),
      List.takeWhile_cons_of_pos (by simp [hn1]),
      List.takeWhile_cons_of_pos (by simp [hn2]),
      List.takeWhile_cons_of_neg (by simp [hz])]
    simp
  have hbuf6 : intbufRead (String.mk [Char.ofNat 35, d0, d0, d1, d1, d2, d2]) =
      [hexDigitVal d0.toNat, hexDigitVal d0.toNat, hexDigitVal d1.toNat,
       hexDigitVal d1.toNat, hexDigitVal d2.toNat, hexDigitVal d2.toNat] := by
    unfold intbufRead cstr
    rw [show List.range 6 = [0, 1, 2, 3, 4, 5] from rfl]
    simp only [List.map_cons, List.map_nil, String.data, List.getD, List.get?,
      Option.getD]
    rw [List.takeWhile_cons_of_pos (by simp [hn0]),
      List.takeWhile_cons_of_pos (by simp [hn0]),
      List.takeWhile_cons_of_pos (by simp [hn1]),
      List.takeWhile_cons_of_pos (by simp [hn1]),
      List.takeWhile_cons_of_pos (by simp [hn2]),
      List.takeWhile_cons_of_pos (by simp [hn2])]
    simp
  constructor
  · unfold hexcolor2int
    rw [hbuf3]
    norm_num [List.getD, List.foldl]
    ring
  · unfold hexcolor2int
    rw [hbuf3, hbuf6]
    norm_num [List.getD, List.foldl]

theorem claim_C9_shorthand_witness :
    isHexDigitCode (Char.toNat 'a') ∧ isHexDigitCode (Char.toNat 'b') ∧
    isHexDigitCode (Char.toNat 'c') ∧
    hexcolor2int (String.mk [Char.ofNat 35, 'a', 'b', 'c']) =
      hexDigitVal (Char.toNat 'a') * 0x110000 +
        hexDigitVal (Char.toNat 'b') * 0x1100 +
        hexDigitVal (Char.toNat 'c') * 0x11 ∧
    hexcolor2int (String.mk [Char.ofNat 35, 'a', 'b', 'c']) =
      hexcolor2int (String.mk [Char.ofNat 35, 'a', 'a', 'b', 'b', 'c', 'c']) :=
  ⟨by decide, by decide, by decide,
   (claim_C9_shorthand 'a' 'b' 'c' (by decide) (by decide) (by decide)).1,
   (claim_C9_shorthand 'a' 'b' 'c' (by decide) (by decide) (by decide)).2⟩

-- ---------------------------------------------------------------------------
-- data model: atoms, object state, recorded effects

/-- A Pd `t_atom`, restricted to the two shapes mousepad.c inspects
(`IS_A_FLOAT` / `IS_A_SYMBOL`); float atoms carry integral values. -/
inductive t_atom where
  | float (f : Int)
  | symbol (s : String)
deriving DecidableEq

/-- The `t_mousepad` object struct.  `te_xpix` / `te_ypix` are the position
fields of the embedded `t_object`; the glist pointer and clock are host
state and are modelled as call parameters instead. -/
structure t_mousepad where
  te_xpix : Int
  te_ypix : Int
  width : Int
  height : Int
  xval : Int
  yval : Int
  pixw : Int
  pixh : Int
  zoomfactor : Int
  buttonstate : Int
  intcolor : Nat
  sendname : String
  receivename : String
  sendname_unexpanded : String
  receivename_unexpanded : String
  objID : String
  sendname_fixed : String
  receivename_fixed : String
deriving DecidableEq

/-- One recorded Tk drawing call (the `draw_*` helpers around `sys_vgui`).
`rect` also records the outline width argument `w` and whether the call was
`create` (`isnew`) or `coords`; `fixlines` records `canvas_fixlinesfor`. -/
inductive GuiCmd where
  | rect (part : Nat) (x1 y1 x2 y2 : Int) (w : Int) (isnew : Bool)
  | fill (part : Nat) (color : Nat)
  | outline (part : Nat) (color : Nat)
  | erase (part : Nat)
  | fixlines
deriving DecidableEq

/-- Destination of an output message: the dataflow outlet
(`outlet_anything`) or a named broadcast channel (`typedmess` on a bound
symbol). -/
inductive MsgDest where
  | outlet
  | chan (name : String)
deriving DecidableEq

/-- One output message: destination, selector and float payload (payload
values are integral in all emissions of this class). -/
structure Msg where
  dest : MsgDest
  sel : String
  args : List Int
deriving DecidableEq

/-- `pd_bind`: add one binding of this object to `name`. -/
def pd_bind (env : List String) (name : String) : List String :=
  name :: env

/-- `pd_unbind`: remove one binding of this object to `name`. -/
def pd_unbind (env : List String) (name : String) : List String :=
  env.erase name

/-- `atom_getsymbolarg(i, argc, argv)`: the symbol at index i, or the null
symbol `&s_` (the empty string) if the index is out of range or the atom is
not a symbol. -/
def atom_getsymbolarg (i : Nat) (args : List t_atom) : String :=
  match args.getD i (t_atom.symbol s_) with
  | t_atom.symbol s => s
  | _ => s_

-- ---------------------------------------------------------------------------
-- pixel calculator and widget-behavior callbacks

/-- `mousepad_draw`: emit the rectangles that must be (re)drawn.  Returns
early when the object is neither being created nor visible.  When `rects`
is 0 the set to draw is computed from the send/receive names: the inlet is
drawn when the send name is "empty" and the outlet when the receive name is
"empty".  `text_xpix`/`text_ypix` are `te_xpix`/`te_ypix` here (toplevel
canvas, no parent offset). -/
def mousepad_draw (mp : t_mousepad) (visible : Bool) (isnew : Bool)
    (rects0 : Nat) : List GuiCmd :=
  if !isnew && !visible then []
  else
    let zoom := mp.zoomfactor
    let xpos := mp.te_xpix
    let ypos := mp.te_ypix
    let width := mp.pixw
    let height := mp.pixh
    let iowidth := IOWIDTH * zoom
    let ioheight := IOHEIGHT * zoom
    let rects :=
      if rects0 = 0 then
        (BASE ||| (if mp.sendname = symEmpty then INLET else 0)) |||
          (if mp.receivename = symEmpty then OUTLET else 0)
      else rects0
    (if rects &&& BASE ≠ 0 then
        [GuiCmd.rect BASE xpos ypos (xpos + width) (ypos + height) zoom isnew]
      else []) ++
    (if rects &&& INLET ≠ 0 then
        [GuiCmd.rect INLET xpos ypos (xpos + iowidth) (ypos + ioheight) zoom isnew]
      else []) ++
    (if rects &&& OUTLET ≠ 0 then
        [GuiCmd.rect OUTLET xpos (ypos + height - ioheight) (xpos + iowidth)
          (ypos + height) zoom isnew]
      else []) ++
    (if isnew then [GuiCmd.fill BASE mp.intcolor] else [GuiCmd.fixlines])

/-- `mousepad_change_io`: called by the send/receive setters when
send/receivability changes; draws the iolet (`change = 1`) or erases it
(`change = -1`), and does nothing when the glist is not visible. -/
def mousepad_change_io (mp : t_mousepad) (visible : Bool) (change : Int)
    (iolet : Nat) : List GuiCmd :=
  if !visible then []
  else if change = 1 then mousepad_draw mp visible true iolet
  else if change = -1 then [GuiCmd.erase iolet]
  else []

/-- `mousepad_getrect`: the widget-behavior geometry query, reporting the
base rectangle. -/
def mousepad_getrect (mp : t_mousepad) : Int × Int × Int × Int :=
  (mp.te_xpix, mp.te_ypix, mp.te_xpix + mp.pixw, mp.te_ypix + mp.pixh)

-- ---------------------------------------------------------------------------
-- event callbacks

/-- `mousepad_motion`: drag callback with x/y deltas.  Returns the updated
state and the emitted messages, in order.  `thing` tells whether a symbol's
`s_thing` is bound. -/
def mousepad_motion (thing : String → Bool) (mp : t_mousepad)
    (dx dy : Int) : t_mousepad × List Msg :=
  let deltax := dx
  let deltay := dy
  -- do not send output if nothing changed: `if ((deltax | deltay) == 0) return`
  if Int.lor deltax deltay = 0 then (mp, [])
  else
    -- sendable = (mp->sendname != symEmpty); output is repeated on the send
    -- channel when `sendable && mp->sendname->s_thing`
    let mp := { mp with xval := mp.xval + deltax, yval := mp.yval + deltay }
    let dragArgs := [Int.tdiv mp.xval mp.zoomfactor, Int.tdiv mp.yval mp.zoomfactor]
    let deltaArgs := [Int.tdiv deltax mp.zoomfactor, Int.tdiv deltay mp.zoomfactor]
    (mp,
      [Msg.mk MsgDest.outlet symDrag dragArgs] ++
      (if mp.sendname ≠ symEmpty ∧ thing mp.sendname = true then
          [Msg.mk (MsgDest.chan mp.sendname) symDrag dragArgs]
        else []) ++
      [Msg.mk MsgDest.outlet symDeltas deltaArgs] ++
      (if mp.sendname ≠ symEmpty ∧ thing mp.sendname = true then
          [Msg.mk (MsgDest.chan mp.sendname) symDeltas deltaArgs]
        else []))

/-- Result of the click/hover widget-behavior callback: new state, emitted
messages, whether `glist_grab` was called (mouse grab for drag), and the
return value. -/
structure ClickResult where
  mp : t_mousepad
  msgs : List Msg
  grabbed : Bool
  ret : Int
deriving DecidableEq

/-- `mousepad_click`: called on hover over the canvas or on a click in the
gui area. -/
def mousepad_click (thing : String → Bool) (mp : t_mousepad)
    (xpix ypix shift alt dbl buttonstate : Int) : ClickResult :=
  -- sendable = (mp->sendname != symEmpty)
  let xpos := mp.te_xpix
  let ypos := mp.te_ypix
  let buttonPart : List Msg × t_mousepad :=
    if buttonstate ≠ mp.buttonstate then
      let args := [buttonstate, shift, if alt ≠ 0 then 1 else 0]
      ([Msg.mk MsgDest.outlet symButton args] ++
        (if mp.sendname ≠ symEmpty ∧ thing mp.sendname = true then
            [Msg.mk (MsgDest.chan mp.sendname) symButton args]
          else []),
       { mp with buttonstate := buttonstate })
    else ([], mp)
  let buttonMsgs := buttonPart.1
  let mp := buttonPart.2
  let mp := { mp with xval := xpix - xpos, yval := ypix - ypos }
  let coords := [Int.tdiv mp.xval mp.zoomfactor, Int.tdiv mp.yval mp.zoomfactor]
  if buttonstate ≠ 0 then
    { mp := mp,
      msgs := buttonMsgs ++ [Msg.mk MsgDest.outlet symDrag coords] ++
        (if mp.sendname ≠ symEmpty ∧ thing mp.sendname = true then
            [Msg.mk (MsgDest.chan mp.sendname) symDrag coords]
          else []),
      grabbed := true, ret := 1 }
  else
    { mp := mp,
      msgs := buttonMsgs ++ [Msg.mk MsgDest.outlet symHover coords] ++
        (if mp.sendname ≠ symEmpty ∧ thing mp.sendname = true then
            [Msg.mk (MsgDest.chan mp.sendname) symHover coords]
          else []),
      grabbed := false, ret := 1 }

/-- `mousepad_zoom`: store the zoom factor sent by Pd, recompute the true
pixel sizes, and push a zoom event to listeners. -/
def mousepad_zoom (thing : String → Bool) (mp : t_mousepad)
    (zoomfactor : Int) : t_mousepad × List Msg :=
  let mp := { mp with
    pixw := mp.width * zoomfactor,
    pixh := mp.height * zoomfactor,
    zoomfactor := zoomfactor }
  -- sendable = (mp->sendname != symEmpty)
  (mp,
    [Msg.mk MsgDest.outlet symZoom [zoomfactor]] ++
    (if mp.sendname ≠ symEmpty ∧ thing mp.sendname = true then
        [Msg.mk (MsgDest.chan mp.sendname) symZoom [zoomfactor]]
      else []) ++
    (if thing mp.sendname_fixed = true then
        [Msg.mk (MsgDest.chan mp.sendname_fixed) symZoom [zoomfactor]]
      else []))

-- ---------------------------------------------------------------------------
-- settings mutators

/-- `mousepad_delta`: move the object by a (nominal) delta and redraw. -/
def mousepad_delta (mp : t_mousepad) (visible : Bool) (dx dy : Int) :
    t_mousepad × List GuiCmd :=
  let mp := { mp with
    te_xpix := mp.te_xpix + dx * mp.zoomfactor,
    te_ypix := mp.te_ypix + dy * mp.zoomfactor }
  (mp, mousepad_draw mp visible false 0)

/-- `mousepad_pos`: set the object's nominal position and redraw. -/
def mousepad_pos (mp : t_mousepad) (visible : Bool) (xpos ypos : Int) :
    t_mousepad × List GuiCmd :=
  let mp := { mp with
    te_xpix := xpos * mp.zoomfactor,
    te_ypix := ypos * mp.zoomfactor }
  (mp, mousepad_draw mp visible false 0)

/-- First byte of a symbol's name, for the `s_name[0] == '#'` test
(0 for the empty symbol). -/
def firstByte (s : String) : Nat :=
  cstr s 0

/-- `mousepad_color`: set the fill color from a float (masked to 24 bits:
`intcolor &= 0xFFFFFF`, which on a two's-complement int is the nonnegative
residue modulo 2^24) or from a webcolor symbol beginning with '#'; any
other symbol leaves the default `DEFCOLOR`.  Without arguments it returns
immediately.  When the glist is visible the new fill color is drawn. -/
def mousepad_color (mp : t_mousepad) (visible : Bool) (args : List t_atom) :
    t_mousepad × List GuiCmd :=
  match args with
  | [] => (mp, [])
  | a :: _ =>
    let intcolor : Nat :=
      match a with
      | t_atom.float f => (Int.emod f 0x1000000).toNat
      | t_atom.symbol s =>
        if firstByte s = 35 then hexcolor2int s else DEFCOLOR
    ({ mp with intcolor := intcolor },
     if visible then [GuiCmd.fill BASE intcolor] else [])

/-- `mousepad_size`: set nominal width and height.  Missing or non-float
dimensions default to `DEFSIZE`; with exactly one argument the height
equals the width; each dimension below 1 is clamped to 1; the true pixel
sizes follow the zoom factor. -/
def mousepad_size (mp : t_mousepad) (args : List t_atom) : t_mousepad :=
  let width : Int :=
    match args.head? with
    | some (t_atom.float f) => f
    | _ => DEFSIZE
  let height : Int :=
    if args.length = 1 then width
    else
      match args.getD 1 (t_atom.symbol s_) with
      | t_atom.float f => f
      | _ => DEFSIZE
  let width := if width < 1 then 1 else width
  let height := if height < 1 then 1 else height
  { mp with
    width := width, height := height,
    pixw := width * mp.zoomfactor, pixh := height * mp.zoomfactor }

/-- `mousepad_resize`: the "size" message handler; set the size and
redraw. -/
def mousepad_resize (mp : t_mousepad) (visible : Bool) (args : List t_atom) :
    t_mousepad × List GuiCmd :=
  let mp := mousepad_size mp args
  (mp, mousepad_draw mp visible false 0)

-- ---------------------------------------------------------------------------
-- send and receive names

/-- `mousepad_send`: set the send name.  The null symbol `&s_` becomes
"empty"; the unexpanded name is stored and the working name is the
dollar-expanded one (`canvas_realizedollar`, parameter `rd`).  The inlet is
drawn or erased when sendability changes.  (Note: `is_sendable` is computed
from the unexpanded name, `was_sendable` from the previously expanded
one.) -/
def mousepad_send (rd : String → String) (mp : t_mousepad) (visible : Bool)
    (sendname0 : String) : t_mousepad × List GuiCmd :=
  let was_sendable : Bool := mp.sendname != symEmpty
  let sendname := if sendname0 = s_ then symEmpty else sendname0
  let is_sendable : Bool := sendname != symEmpty
  let mp := { mp with
    sendname_unexpanded := sendname,
    sendname := rd sendname }
  let change : Int :=
    (if was_sendable then 1 else 0) - (if is_sendable then 1 else 0)
  (mp, if change ≠ 0 then mousepad_change_io mp visible change INLET else [])

/-- `mousepad_receive`: set the receive name.  If previously receivable the
old expanded name is unbound; the null symbol becomes "empty"; the new name
is dollar-expanded and bound when not "empty".  The outlet is drawn or
erased when receivability changes. -/
def mousepad_receive (rd : String → String) (mp : t_mousepad)
    (env : List String) (visible : Bool) (receivename0 : String) :
    t_mousepad × List String × List GuiCmd :=
  let was_receivable : Bool := mp.receivename != symEmpty
  let env := if was_receivable then pd_unbind env mp.receivename else env
  let receivename1 := if receivename0 = s_ then symEmpty else receivename0
  let mp := { mp with receivename_unexpanded := receivename1 }
  let receivename := rd receivename1
  let is_receivable : Bool := receivename != symEmpty
  let env := if is_receivable then pd_bind env receivename else env
  let mp := { mp with receivename := receivename }
  let change : Int :=
    (if was_receivable then 1 else 0) - (if is_receivable then 1 else 0)
  (mp, env, if change ≠ 0 then mousepad_change_io mp visible change OUTLET else [])

-- ---------------------------------------------------------------------------
-- save, creation, deletion

/-- The literal symbols of the save line. -/
def symHashX : String := "#X"

/-- The second literal symbol of the save line. -/
def symObj : String := "obj"

/-- `mousepad_save`: the save line written to the binbuf: `#X obj`, the
zoom-normalized position, the class name (first atom of the object's
binbuf), nominal width and height, the unexpanded send and receive names,
and the fill color as a webcolor symbol. -/
def mousepad_save (classname : String) (mp : t_mousepad) : List t_atom :=
  [t_atom.symbol symHashX, t_atom.symbol symObj,
   t_atom.float (Int.tdiv mp.te_xpix mp.zoomfactor),
   t_atom.float (Int.tdiv mp.te_ypix mp.zoomfactor),
   t_atom.symbol classname,
   t_atom.float mp.width, t_atom.float mp.height,
   t_atom.symbol mp.sendname_unexpanded,
   t_atom.symbol mp.receivename_unexpanded,
   t_atom.symbol (int2hexcolor mp.intcolor)]

/-- The freshly allocated object with the field assignments made at the
top of `mousepad_new` (and, for the identity fields, by
`mousepad_fixed_sendreceive`); fields Pd leaves to later host calls
(`te_xpix`, `te_ypix`) start at 0. -/
def mousepad_init (objID : String) : t_mousepad := {
  te_xpix := 0, te_ypix := 0,
  width := 0, height := 0, pixw := 0, pixh := 0,
  intcolor := DEFCOLOR, zoomfactor := DEFZOOM,
  xval := 0, yval := 0, buttonstate := 0,
  sendname := symEmpty, receivename := symEmpty,
  sendname_unexpanded := symEmpty, receivename_unexpanded := symEmpty,
  objID := objID,
  sendname_fixed := "from-mousepad-" ++ objID,
  receivename_fixed := "to-mousepad-" ++ objID }

/-- `mousepad_new`: construction from creation arguments
`[width height send receive color]`.  `objID` is the object pointer
rendered as a hex symbol (a host-supplied identity); the fixed channel
names are derived from it and the fixed receive channel is bound
(`mousepad_fixed_sendreceive`).  The unexpanded names are overwritten with
"empty" for the deferred binbuf initialization.  Returns the new state, the
updated binding multiset and the drawing calls issued underway. -/
def mousepad_new (rd : String → String) (objID : String) (visible : Bool)
    (args : List t_atom) (env : List String) :
    t_mousepad × List String × List GuiCmd :=
  let mp := mousepad_size (mousepad_init objID) args
  let sendResult := mousepad_send rd mp visible (atom_getsymbolarg 2 args)
  let mp := sendResult.1
  let recvResult := mousepad_receive rd mp env visible (atom_getsymbolarg 3 args)
  let mp := recvResult.1
  let env := recvResult.2.1
  let colorResult :=
    if 5 ≤ args.length then mousepad_color mp visible ((args.drop 4).take 1)
    else (mp, [])
  let mp := colorResult.1
  let mp := { mp with
    sendname_unexpanded := symEmpty, receivename_unexpanded := symEmpty }
  let env := pd_bind env mp.receivename_fixed
  (mp, env, sendResult.2 ++ recvResult.2.2 ++ colorResult.2)

/-- `mousepad_free`: teardown; unbind the fixed receive channel and, when
receivable, the user receive name. -/
def mousepad_free (mp : t_mousepad) (env : List String) : List String :=
  let env := pd_unbind env mp.receivename_fixed
  if mp.receivename ≠ symEmpty then pd_unbind env mp.receivename else env

-- ---------------------------------------------------------------------------
-- sample host parameters and states used by the closed witnesses

/-- Identity dollar expansion (a canvas without dollar arguments). -/
def rdId : String → String := fun s => s

/-- Sample bound-ness: every symbol's `s_thing` is bound. -/
def thingAll : String → Bool := fun _ => true

/-- A sample object state: send name "foo" set, receive name empty. -/
def mpSample : t_mousepad := {
  te_xpix := 30, te_ypix := 40,
  width := 64, height := 48,
  xval := 5, yval := 6,
  pixw := 128, pixh := 96,
  zoomfactor := 2, buttonstate := 0,
  intcolor := 0xDDDDDD,
  sendname := "foo", receivename := symEmpty,
  sendname_unexpanded := "foo", receivename_unexpanded := symEmpty,
  objID := "0XA",
  sendname_fixed := "from-mousepad-0XA",
  receivename_fixed := "to-mousepad-0XA" }

-- ---------------------------------------------------------------------------
-- C4: pixel-rectangle layout

/-- C4: for an object at pixel position (x, y) with zoom factor z, the
layout places the base rectangle at (x, y, x+pixw, y+pixh), the inlet
rectangle at the top-left (x, y, x+IOWIDTH*z, y+3*z), and the outlet
rectangle at the bottom-left (x, y+pixh-3*z, x+IOWIDTH*z, y+pixh);
mousepad_getrect reports exactly the base rectangle. -/
theorem claim_C4_rect_layout (mp : t_mousepad) (visible : Bool) :
    mousepad_draw mp visible true ((BASE ||| INLET) ||| OUTLET) =
      [GuiCmd.rect BASE mp.te_xpix mp.te_ypix (mp.te_xpix + mp.pixw)
         (mp.te_ypix + mp.pixh) mp.zoomfactor true,
       GuiCmd.rect INLET mp.te_xpix mp.te_ypix
         (mp.te_xpix + IOWIDTH * mp.zoomfactor) (mp.te_ypix + 3 * mp.zoomfactor)
         mp.zoomfactor true,
       GuiCmd.rect OUTLET mp.te_xpix (mp.te_ypix + mp.pixh - 3 * mp.zoomfactor)
         (mp.te_xpix + IOWIDTH * mp.zoomfactor) (mp.te_ypix + mp.pixh)
         mp.zoomfactor true,
       GuiCmd.fill BASE mp.intcolor] ∧
    mousepad_getrect mp =
      (mp.te_xpix, mp.te_ypix, mp.te_xpix + mp.pixw, mp.te_ypix + mp.pixh) := by
  constructor
  · unfold mousepad_draw
    rw [show ((BASE ||| INLET) ||| OUTLET) = 7 from rfl]
    norm_num [show ((7 : Nat) &&& BASE) = 1 from rfl,
      show ((7 : Nat) &&& INLET) = 2 from rfl,
      show ((7 : Nat) &&& OUTLET) = 4 from rfl, IOHEIGHT]
  · rfl

-- ---------------------------------------------------------------------------
-- C2: the motion callback

theorem nat_lor_eq_zero_iff (m n : Nat) : m ||| n = 0 ↔ m = 0 ∧ n = 0 := by
  constructor
  · intro h
    constructor
    · apply Nat.eq_of_testBit_eq
      intro i
      have hb := congrArg (fun x => Nat.testBit x i) h
      simp only [Nat.testBit_or, Nat.zero_testBit] at hb
      simp only [Nat.zero_testBit]
      exact (Bool.or_eq_false_iff.mp hb).1
    · apply Nat.eq_of_testBit_eq
      intro i
      have hb := congrArg (fun x => Nat.testBit x i) h
      simp only [Nat.testBit_or, Nat.zero_testBit] at hb
      simp only [Nat.zero_testBit]
      exact (Bool.or_eq_false_iff.mp hb).2
  · rintro ⟨rfl, rfl⟩
    rfl

theorem int_lor_eq_zero_iff (a b : Int) : Int.lor a b = 0 ↔ a = 0 ∧ b = 0 := by
  cases a with
  | ofNat m =>
    cases b with
    | ofNat n =>
      simp only [Int.lor, Int.ofNat_eq_natCast, Int.natCast_eq_zero]
      exact nat_lor_eq_zero_iff m n
    | negSucc n =>
      simp [Int.lor]
  | negSucc m =>
    cases b with
    | ofNat n => simp [Int.lor]
    | negSucc n => simp [Int.lor]

/-- C2: with integer deltas (dx, dy) different from (0, 0), mousepad_motion
adds dx to xval and dy to yval and then emits, in order, a 'drag' message
carrying (xval/zoomfactor, yval/zoomfactor) and a 'deltas' message
carrying (dx/zoomfactor, dy/zoomfactor), each on the outlet and repeated
on the send channel exactly when the send name is not 'empty' and that
channel is bound; with dx = 0 and dy = 0 it emits nothing and leaves all
state unchanged. -/
theorem claim_C2_motion (thing : String → Bool) (mp : t_mousepad) (dx dy : Int) :
    (¬(dx = 0 ∧ dy = 0) →
      mousepad_motion thing mp dx dy =
        ({ mp with xval := mp.xval + dx, yval := mp.yval + dy },
          [Msg.mk MsgDest.outlet symDrag
             [Int.tdiv (mp.xval + dx) mp.zoomfactor,
              Int.tdiv (mp.yval + dy) mp.zoomfactor]] ++
          (if mp.sendname ≠ symEmpty ∧ thing mp.sendname = true then
             [Msg.mk (MsgDest.chan mp.sendname) symDrag
                [Int.tdiv (mp.xval + dx) mp.zoomfactor,
                 Int.tdiv (mp.yval + dy) mp.zoomfactor]]
           else []) ++
          [Msg.mk MsgDest.outlet symDeltas
             [Int.tdiv dx mp.zoomfactor, Int.tdiv dy mp.zoomfactor]] ++
          (if mp.sendname ≠ symEmpty ∧ thing mp.sendname = true then
             [Msg.mk (MsgDest.chan mp.sendname) symDeltas
                [Int.tdiv dx mp.zoomfactor, Int.tdiv dy mp.zoomfactor]]
           else []))) ∧
    ((dx = 0 ∧ dy = 0) → mousepad_motion thing mp dx dy = (mp, [])) := by
  constructor
  · intro h
    have hlor : ¬(Int.lor dx dy = 0) := fun h0 => h ((int_lor_eq_zero_iff dx dy).mp h0)
    unfold mousepad_motion
    rw [if_neg hlor]
  · rintro ⟨rfl, rfl⟩
    rfl

theorem claim_C2_motion_witness :
    ¬((3 : Int) = 0 ∧ (4 : Int) = 0) ∧
    mousepad_motion thingAll mpSample 3 4 =
      ({ mpSample with xval := 8, yval := 10 },
       [Msg.mk MsgDest.outlet symDrag [4, 5],
        Msg.mk (MsgDest.chan mpSample.sendname) symDrag [4, 5],
        Msg.mk MsgDest.outlet symDeltas [1, 2],
        Msg.mk (MsgDest.chan mpSample.sendname) symDeltas [1, 2]]) := by
  refine ⟨by decide, ?_⟩
  have h := (claim_C2_motion thingAll mpSample 3 4).1 (by decide)
  rw [h]
  decide

/-- C3: on every click/hover callback, mousepad_click emits a 3-element
'button' message (buttonstate, shift, alt normalized to 0 or 1) exactly
when the incoming buttonstate differs from the stored one, and stores the
incoming buttonstate; it sets xval/yval to the pointer position minus the
object's pixel position and emits a 'drag' message (button down, with the
mouse grabbed) or a 'hover' message (button up) carrying
(xval/zoomfactor, yval/zoomfactor), each on the outlet and repeated on the
send channel exactly when the send name is not 'empty' and bound; the
callback always returns 1. -/
theorem claim_C3_click (thing : String → Bool) (mp : t_mousepad)
    (xpix ypix shift alt dbl buttonstate : Int) :
    mousepad_click thing mp xpix ypix shift alt dbl buttonstate =
      { mp := { mp with buttonstate := buttonstate,
                        xval := xpix - mp.te_xpix, yval := ypix - mp.te_ypix },
        msgs :=
          (if buttonstate ≠ mp.buttonstate then
             [Msg.mk MsgDest.outlet symButton
                [buttonstate, shift, if alt ≠ 0 then 1 else 0]] ++
             (if mp.sendname ≠ symEmpty ∧ thing mp.sendname = true then
                [Msg.mk (MsgDest.chan mp.sendname) symButton
                   [buttonstate, shift, if alt ≠ 0 then 1 else 0]]
              else [])
           else []) ++
          [Msg.mk MsgDest.outlet (if buttonstate ≠ 0 then symDrag else symHover)
             [Int.tdiv (xpix - mp.te_xpix) mp.zoomfactor,
              Int.tdiv (ypix - mp.te_ypix) mp.zoomfactor]] ++
          (if mp.sendname ≠ symEmpty ∧ thing mp.sendname = true then
             [Msg.mk (MsgDest.chan mp.sendname)
                (if buttonstate ≠ 0 then symDrag else symHover)
                [Int.tdiv (xpix - mp.te_xpix) mp.zoomfactor,
                 Int.tdiv (ypix - mp.te_ypix) mp.zoomfactor]]
           else []),
        grabbed := buttonstate != 0,
        ret := 1 } := by
  unfold mousepad_click
  by_cases hB : buttonstate = mp.buttonstate
  · subst hB
    by_cases hZ : mp.buttonstate = 0 <;> simp [hZ, bne]
  · by_cases hZ : buttonstate = 0
    · subst hZ
      simp [hB, bne]
    · simp [hB, hZ, bne]

/-- C8: the 'color' message with a float first argument f sets the fill
color to (int)f reduced modulo 2^24; with a symbol first argument
beginning with '#' it sets it to hexcolor2int of that symbol; with any
other symbol it sets the default 0xDDDDDD; with no arguments it returns
immediately leaving all state unchanged (and emits no drawing call). -/
theorem claim_C8_color (mp : t_mousepad) (visible : Bool) :
    (mousepad_color mp visible [] = (mp, [])) ∧
    (∀ (f : Int) (rest : List t_atom),
      mousepad_color mp visible (t_atom.float f :: rest) =
        ({ mp with intcolor := (Int.emod f (2 ^ 24)).toNat },
         if visible then [GuiCmd.fill BASE ((Int.emod f (2 ^ 24)).toNat)] else [])) ∧
    (∀ (s : String) (rest : List t_atom), firstByte s = 35 →
      mousepad_color mp visible (t_atom.symbol s :: rest) =
        ({ mp with intcolor := hexcolor2int s },
         if visible then [GuiCmd.fill BASE (hexcolor2int s)] else [])) ∧
    (∀ (s : String) (rest : List t_atom), firstByte s ≠ 35 →
      mousepad_color mp visible (t_atom.symbol s :: rest) =
        ({ mp with intcolor := 0xDDDDDD },
         if visible then [GuiCmd.fill BASE 0xDDDDDD] else [])) := by
  refine ⟨rfl, ?_, ?_, ?_⟩
  · intro f rest
    simp [mousepad_color]
  · intro s rest h
    simp [mousepad_color, h]
  · intro s rest h
    simp [mousepad_color, h, DEFCOLOR]

theorem claim_C8_color_witness :
    firstByte (String.mk [Char.ofNat 35, 'F', 'F', '0', '0', '0', '0']) = 35 ∧
    mousepad_color mpSample true
        [t_atom.symbol (String.mk [Char.ofNat 35, 'F', 'F', '0', '0', '0', '0'])] =
      ({ mpSample with
          intcolor := hexcolor2int (String.mk [Char.ofNat 35, 'F', 'F', '0', '0', '0', '0']) },
       if true then
         [GuiCmd.fill BASE
            (hexcolor2int (String.mk [Char.ofNat 35, 'F', 'F', '0', '0', '0', '0']))]
       else []) ∧
    firstByte symEmpty ≠ 35 ∧
    mousepad_color mpSample true [t_atom.symbol symEmpty] =
      ({ mpSample with intcolor := 0xDDDDDD },
       if true then [GuiCmd.fill BASE 0xDDDDDD] else []) :=
  ⟨by decide,
   (claim_C8_color mpSample true).2.2.1
     (String.mk [Char.ofNat 35, 'F', 'F', '0', '0', '0', '0']) [] (by decide),
   by decide,
   (claim_C8_color mpSample true).2.2.2 symEmpty [] (by decide)⟩

-- ---------------------------------------------------------------------------
-- C10: geometry invariant

/-- The geometry invariant: positive nominal sizes and pixel sizes matching
the zoom factor. -/
def sizeInv (mp : t_mousepad) : Prop :=
  1 ≤ mp.width ∧ 1 ≤ mp.height ∧
  mp.pixw = mp.width * mp.zoomfactor ∧ mp.pixh = mp.height * mp.zoomfactor

theorem mousepad_color_width (mp : t_mousepad) (visible : Bool)
    (args : List t_atom) : (mousepad_color mp visible args).1.width = mp.width := by
  cases args with
  | nil => rfl
  | cons a rest => cases a <;> rfl

theorem mousepad_color_height (mp : t_mousepad) (visible : Bool)
    (args : List t_atom) : (mousepad_color mp visible args).1.height = mp.height := by
  cases args with
  | nil => rfl
  | cons a rest => cases a <;> rfl

theorem mousepad_color_pixw (mp : t_mousepad) (visible : Bool)
    (args : List t_atom) : (mousepad_color mp visible args).1.pixw = mp.pixw := by
  cases args with
  | nil => rfl
  | cons a rest => cases a <;> rfl

theorem mousepad_color_pixh (mp : t_mousepad) (visible : Bool)
    (args : List t_atom) : (mousepad_color mp visible args).1.pixh = mp.pixh := by
  cases args with
  | nil => rfl
  | cons a rest => cases a <;> rfl

theorem mousepad_color_zoomfactor (mp : t_mousepad) (visible : Bool)
    (args : List t_atom) :
    (mousepad_color mp visible args).1.zoomfactor = mp.zoomfactor := by
  cases args with
  | nil => rfl
  | cons a rest => cases a <;> rfl

theorem mousepad_size_inv (mp : t_mousepad) (args : List t_atom) :
    sizeInv (mousepad_size mp args) := by
  unfold mousepad_size sizeInv
  split_ifs <;> simp_all <;> omega

theorem mousepad_new_sizeInv (rd : String → String) (objID : String)
    (visible : Bool) (args : List t_atom) (env : List String) :
    sizeInv (mousepad_new rd objID visible args env).1 := by
  have hs := mousepad_size_inv (mousepad_init objID) args
  unfold sizeInv at hs ⊢
  simp only [mousepad_new, mousepad_send, mousepad_receive]
  split_ifs with h5 <;>
    simp [mousepad_color_width, mousepad_color_height, mousepad_color_pixw,
      mousepad_color_pixh, mousepad_color_zoomfactor] <;>
    omega

/-- C10: after construction and after every size, resize, or zoom operation
the state satisfies width ≥ 1, height ≥ 1, pixw = width * zoomfactor and
pixh = height * zoomfactor; mousepad_size clamps each dimension below 1 up
to 1, defaults missing dimensions to 64, and with exactly one argument
sets height equal to width. -/
theorem claim_C10_geometry :
    (∀ (rd : String → String) (objID : String) (visible : Bool)
        (args : List t_atom) (env : List String),
      sizeInv (mousepad_new rd objID visible args env).1) ∧
    (∀ (mp : t_mousepad) (args : List t_atom), sizeInv (mousepad_size mp args)) ∧
    (∀ (mp : t_mousepad) (visible : Bool) (args : List t_atom),
      sizeInv (mousepad_resize mp visible args).1) ∧
    (∀ (thing : String → Bool) (mp : t_mousepad) (z : Int),
      1 ≤ mp.width → 1 ≤ mp.height → sizeInv (mousepad_zoom thing mp z).1) ∧
    (∀ mp : t_mousepad,
      (mousepad_size mp []).width = 64 ∧ (mousepad_size mp []).height = 64) ∧
    (∀ (mp : t_mousepad) (w : Int),
      (mousepad_size mp [t_atom.float w]).width = (if w < 1 then 1 else w) ∧
      (mousepad_size mp [t_atom.float w]).height =
        (mousepad_size mp [t_atom.float w]).width) ∧
    (∀ (mp : t_mousepad) (w h : Int) (rest : List t_atom),
      (mousepad_size mp (t_atom.float w :: t_atom.float h :: rest)).width =
        (if w < 1 then 1 else w) ∧
      (mousepad_size mp (t_atom.float w :: t_atom.float h :: rest)).height =
        (if h < 1 then 1 else h)) := by
  refine ⟨mousepad_new_sizeInv, mousepad_size_inv, ?_, ?_, ?_, ?_, ?_⟩
  · intro mp visible args
    exact mousepad_size_inv mp args
  · intro thing mp z hw hh
    unfold mousepad_zoom sizeInv
    exact ⟨hw, hh, rfl, rfl⟩
  · intro mp
    constructor <;> rfl
  · intro mp w
    unfold mousepad_size
    simp
  · intro mp w h rest
    unfold mousepad_size
    simp

theorem claim_C10_geometry_witness :
    1 ≤ mpSample.width ∧ 1 ≤ mpSample.height ∧
    sizeInv (mousepad_zoom thingAll mpSample 1).1 :=
  ⟨by decide, by decide,
   claim_C10_geometry.2.2.2.1 thingAll mpSample 1 (by decide) (by decide)⟩

-- ---------------------------------------------------------------------------
-- C7: binding invariant for the receive channels

theorem mousepad_color_receivename (mp : t_mousepad) (visible : Bool)
    (args : List t_atom) :
    (mousepad_color mp visible args).1.receivename = mp.receivename := by
  cases args with
  | nil => rfl
  | cons a rest => cases a <;> rfl

theorem mousepad_color_receivename_fixed (mp : t_mousepad) (visible : Bool)
    (args : List t_atom) :
    (mousepad_color mp visible args).1.receivename_fixed = mp.receivename_fixed := by
  cases args with
  | nil => rfl
  | cons a rest => cases a <;> rfl

/-- The multiset of names this object keeps bound while alive: the fixed
receive channel, and the expanded user receive name exactly when it is not
"empty". -/
def owned (mp : t_mousepad) : List String :=
  mp.receivename_fixed ::
    (if mp.receivename ≠ symEmpty then [mp.receivename] else [])

/-- The binding invariant: the object's bindings are exactly `owned`, as a
multiset. -/
def bindInv (mp : t_mousepad) (env : List String) : Prop :=
  env.Perm (owned mp)

theorem erase_pair (a b : String) : ([a, b] : List String).erase b = [a] := by
  by_cases h : a = b
  · subst h
    rw [List.erase_cons_head]
  · rw [List.erase_cons_tail (by simpa using h), List.erase_cons_head]

theorem mousepad_receive_keeps_bindInv (rd : String → String) (mp : t_mousepad)
    (env : List String) (visible : Bool) (nm : String) (h : bindInv mp env) :
    bindInv (mousepad_receive rd mp env visible nm).1
      (mousepad_receive rd mp env visible nm).2.1 := by
  unfold bindInv owned at h ⊢
  unfold mousepad_receive pd_bind pd_unbind
  by_cases hold : mp.receivename = symEmpty <;>
    by_cases hnew : rd (if nm = s_ then symEmpty else nm) = symEmpty <;>
      simp only [hold, hnew, bne, beq_self_eq_true, Bool.not_true, Bool.false_eq_true,
        if_false, if_true, ne_eq, not_true_eq_false, not_false_eq_true] <;>
      simp_all
  · exact List.Perm.swap _ _ _
  · have h2 := h.erase mp.receivename
    rw [erase_pair] at h2
    simpa using h2
  · have h2 := h.erase mp.receivename
    rw [erase_pair] at h2
    have h3 : env.erase mp.receivename = [mp.receivename_fixed] := by simpa using h2
    rw [h3]
    exact List.Perm.swap _ _ _

theorem mousepad_free_unbinds_all (mp : t_mousepad) (env : List String)
    (h : bindInv mp env) : mousepad_free mp env = [] := by
  unfold bindInv owned at h
  unfold mousepad_free pd_unbind
  by_cases hold : mp.receivename = symEmpty
  · simp only [hold, ne_eq, not_true_eq_false, if_false] at h ⊢
    simp at h
    simp [h, List.erase_cons_head]
  · simp only [hold, ne_eq, not_false_eq_true, if_true] at h ⊢
    have h1 := h.erase mp.receivename_fixed
    rw [List.erase_cons_head] at h1
    have h2 := h1.erase mp.receivename
    rw [List.erase_cons_head] at h2
    simpa using h2

theorem mousepad_new_bindInv (rd : String → String) (objID : String)
    (visible : Bool) (args : List t_atom) :
    (mousepad_new rd objID visible args []).1.receivename_fixed =
      "to-mousepad-" ++ objID ∧
    bindInv (mousepad_new rd objID visible args []).1
      (mousepad_new rd objID visible args []).2.1 := by
  constructor
  · simp only [mousepad_new, mousepad_send, mousepad_receive]
    split_ifs <;>
      first
      | rfl
      | (rw [mousepad_color_receivename_fixed]; rfl)
  · unfold bindInv owned
    simp only [mousepad_new, mousepad_send, mousepad_receive,
      mousepad_color_receivename, mousepad_color_receivename_fixed]
    split_ifs with h5 <;>
      by_cases hnew :
        rd (if atom_getsymbolarg 3 args = s_ then symEmpty
            else atom_getsymbolarg 3 args) = symEmpty <;>
        simp_all [pd_bind, pd_unbind, bne, mousepad_color_receivename,
          mousepad_color_receivename_fixed]

instance decBindInv (mp : t_mousepad) (env : List String) :
    Decidable (bindInv mp env) := by
  unfold bindInv owned
  infer_instance

/-- C7: construction binds the fixed channel 'to-mousepad-objID' and the
expanded user receive name exactly when non-empty; mousepad_receive first
unbinds the previous non-empty receive name, then binds the new expanded
name only when non-empty, preserving the invariant; teardown unbinds the
fixed channel and, when non-empty, the user receive name, leaving no
binding. -/
theorem claim_C7_receive_bindings :
    (∀ (rd : String → String) (objID : String) (visible : Bool)
        (args : List t_atom),
      (mousepad_new rd objID visible args []).1.receivename_fixed =
        "to-mousepad-" ++ objID ∧
      bindInv (mousepad_new rd objID visible args []).1
        (mousepad_new rd objID visible args []).2.1) ∧
    (∀ (rd : String → String) (mp : t_mousepad) (env : List String)
        (visible : Bool) (nm : String),
      (mousepad_receive rd mp env visible nm).2.1 =
        (let e1 :=
          if mp.receivename ≠ symEmpty then pd_unbind env mp.receivename else env
         if rd (if nm = s_ then symEmpty else nm) ≠ symEmpty then
           pd_bind e1 (rd (if nm = s_ then symEmpty else nm))
         else e1) ∧
      (bindInv mp env →
        bindInv (mousepad_receive rd mp env visible nm).1
          (mousepad_receive rd mp env visible nm).2.1)) ∧
    (∀ (mp : t_mousepad) (env : List String),
      bindInv mp env → mousepad_free mp env = []) := by
  refine ⟨mousepad_new_bindInv, ?_, mousepad_free_unbinds_all⟩
  intro rd mp env visible nm
  refine ⟨?_, mousepad_receive_keeps_bindInv rd mp env visible nm⟩
  unfold mousepad_receive
  by_cases hold : mp.receivename = symEmpty <;>
    by_cases hnew : rd (if nm = s_ then symEmpty else nm) = symEmpty <;>
      simp [hold, hnew, bne]

/-- Sample state bound to a user receive name "bar". -/
def mpRecv : t_mousepad :=
  { mpSample with receivename := "bar", receivename_unexpanded := "bar" }

/-- Sample binding multiset matching `mpRecv`. -/
def envRecv : List String := ["bar", "to-mousepad-0XA"]

theorem claim_C7_receive_bindings_witness :
    bindInv mpRecv envRecv ∧ mousepad_free mpRecv envRecv = [] :=
  ⟨by decide, claim_C7_receive_bindings.2.2 mpRecv envRecv (by decide)⟩

-- ---------------------------------------------------------------------------
-- C5: save line and reconstruction

theorem firstByte_int2hexcolor (c : Nat) : firstByte (int2hexcolor c) = 35 := rfl

/-- Well-formedness of a live object with respect to its canvas's dollar
expansion `rd`: positive sizes, a 24-bit color, and working names that are
the expansion of the stored unexpanded names (which are never the null
symbol).  This is established by construction plus the deferred
`mousepad_init_unexpanded` step and maintained by the name setters. -/
def saveWF (rd : String → String) (mp : t_mousepad) : Prop :=
  1 ≤ mp.width ∧ 1 ≤ mp.height ∧ mp.intcolor < 2 ^ 24 ∧
  mp.sendname_unexpanded ≠ s_ ∧ mp.receivename_unexpanded ≠ s_ ∧
  mp.sendname = rd mp.sendname_unexpanded ∧
  mp.receivename = rd mp.receivename_unexpanded

/-- C5: the save line is '#X obj', the zoom-normalized position, the class
name, the nominal width and height, the unexpanded send/receive names and
the fill color as a webcolor symbol; reconstructing from the five saved
arguments restores the nominal width and height, the expanded send and
receive names, and the integer fill color. -/
theorem claim_C5_save_roundtrip (rd : String → String)
    (classname objID : String) (visible : Bool) (env : List String)
    (mp : t_mousepad) (h : saveWF rd mp) :
    mousepad_save classname mp =
      [t_atom.symbol symHashX, t_atom.symbol symObj,
       t_atom.float (Int.tdiv mp.te_xpix mp.zoomfactor),
       t_atom.float (Int.tdiv mp.te_ypix mp.zoomfactor),
       t_atom.symbol classname,
       t_atom.float mp.width, t_atom.float mp.height,
       t_atom.symbol mp.sendname_unexpanded,
       t_atom.symbol mp.receivename_unexpanded,
       t_atom.symbol (int2hexcolor mp.intcolor)] ∧
    (mousepad_new rd objID visible
        ((mousepad_save classname mp).drop 5) env).1.width = mp.width ∧
    (mousepad_new rd objID visible
        ((mousepad_save classname mp).drop 5) env).1.height = mp.height ∧
    (mousepad_new rd objID visible
        ((mousepad_save classname mp).drop 5) env).1.sendname = mp.sendname ∧
    (mousepad_new rd objID visible
        ((mousepad_save classname mp).drop 5) env).1.receivename = mp.receivename ∧
    (mousepad_new rd objID visible
        ((mousepad_save classname mp).drop 5) env).1.intcolor = mp.intcolor := by
  obtain ⟨hw, hh, hc, hsu, hru, hse, hre⟩ := h
  refine ⟨rfl, ?_, ?_, ?_, ?_, ?_⟩ <;>
    simp [mousepad_new, mousepad_save, mousepad_size, mousepad_send,
      mousepad_receive, mousepad_color, mousepad_init, atom_getsymbolarg,
      firstByte_int2hexcolor, hsu, hru, hse, hre,
      hexcolor2int_int2hexcolor mp.intcolor (by exact_mod_cast hc)] <;>
    omega

instance decSaveWF (rd : String → String) (mp : t_mousepad) :
    Decidable (saveWF rd mp) := by
  unfold saveWF
  infer_instance

/-- The class name symbol stored as the first atom of the binbuf. -/
def mousepadClassName : String := "mousepad"

theorem claim_C5_save_roundtrip_witness :
    saveWF rdId mpSample ∧
    (mousepad_new rdId mpSample.objID true
        ((mousepad_save mousepadClassName mpSample).drop 5) []).1.width =
      mpSample.width ∧
    (mousepad_new rdId mpSample.objID true
        ((mousepad_save mousepadClassName mpSample).drop 5) []).1.height =
      mpSample.height ∧
    (mousepad_new rdId mpSample.objID true
        ((mousepad_save mousepadClassName mpSample).drop 5) []).1.sendname =
      mpSample.sendname ∧
    (mousepad_new rdId mpSample.objID true
        ((mousepad_save mousepadClassName mpSample).drop 5) []).1.receivename =
      mpSample.receivename ∧
    (mousepad_new rdId mpSample.objID true
        ((mousepad_save mousepadClassName mpSample).drop 5) []).1.intcolor =
      mpSample.intcolor :=
  ⟨by decide,
   (claim_C5_save_roundtrip rdId mousepadClassName mpSample.objID true []
      mpSample (by decide)).2.1,
   (claim_C5_save_roundtrip rdId mousepadClassName mpSample.objID true []
      mpSample (by decide)).2.2.1,
   (claim_C5_save_roundtrip rdId mousepadClassName mpSample.objID true []
      mpSample (by decide)).2.2.2.1,
   (claim_C5_save_roundtrip rdId mousepadClassName mpSample.objID true []
      mpSample (by decide)).2.2.2.2.1,
   (claim_C5_save_roundtrip rdId mousepadClassName mpSample.objID true []
      mpSample (by decide)).2.2.2.2.2⟩

-- ---------------------------------------------------------------------------
-- C6: what each settings mutator redraws or rebinds

/-- A sample new send name. -/
def barName : String := "bar"

/-- C6 counterexample: an invocation of the send-name setter that changes
the send name from "foo" to "bar" (both non-empty, widget visible) updates
the state but emits no drawing call; the send path never binds a name, so
this settings-mutator invocation triggers neither a redraw nor a rebind. -/
theorem claim_C6_counterexample :
    (mousepad_send rdId mpSample true barName).1.sendname = barName ∧
    (mousepad_send rdId mpSample true barName).1.sendname ≠ mpSample.sendname ∧
    (mousepad_send rdId mpSample true barName).2 = [] := by
  refine ⟨rfl, ?_, rfl⟩
  decide

/-- C6 (amended): the size, position and delta mutators redraw on each
invocation when the widget is visible; the color mutator redraws whenever
it receives an argument; the send and receive name setters redraw the
corresponding iolet exactly when sendability / receivability toggles; and
the receive setter rebinds its named channel (unbinding the previous
non-empty name, binding the new expanded non-empty name) on each
invocation, while the send setter never touches the bindings. -/
theorem claim_C6_mutators_amended :
    (∀ (mp : t_mousepad) (args : List t_atom),
      (mousepad_resize mp true args).2 ≠ []) ∧
    (∀ (mp : t_mousepad) (x y : Int), (mousepad_pos mp true x y).2 ≠ []) ∧
    (∀ (mp : t_mousepad) (dx dy : Int), (mousepad_delta mp true dx dy).2 ≠ []) ∧
    (∀ (mp : t_mousepad) (a : t_atom) (rest : List t_atom),
      (mousepad_color mp true (a :: rest)).2 ≠ []) ∧
    (∀ (rd : String → String) (mp : t_mousepad) (nm : String),
      (mousepad_send rd mp true nm).2 ≠ [] ↔
        ¬((mp.sendname ≠ symEmpty) ↔
          ((if nm = s_ then symEmpty else nm) ≠ symEmpty))) ∧
    (∀ (rd : String → String) (mp : t_mousepad) (env : List String)
        (nm : String),
      ((mousepad_receive rd mp env true nm).2.2 ≠ [] ↔
        ¬((mp.receivename ≠ symEmpty) ↔
          (rd (if nm = s_ then symEmpty else nm) ≠ symEmpty))) ∧
      (mousepad_receive rd mp env true nm).2.1 =
        (let e1 :=
          if mp.receivename ≠ symEmpty then pd_unbind env mp.receivename else env
         if rd (if nm = s_ then symEmpty else nm) ≠ symEmpty then
           pd_bind e1 (rd (if nm = s_ then symEmpty else nm))
         else e1)) := by
  refine ⟨?_, ?_, ?_, ?_, ?_, ?_⟩
  · intro mp args
    unfold mousepad_resize mousepad_draw
    by_cases hS : (mousepad_size mp args).sendname = symEmpty <;>
      by_cases hR : (mousepad_size mp args).receivename = symEmpty <;>
        simp [hS, hR]
  · intro mp x y
    unfold mousepad_pos mousepad_draw
    by_cases hS : mp.sendname = symEmpty <;>
      by_cases hR : mp.receivename = symEmpty <;>
        simp [hS, hR]
  · intro mp dx dy
    unfold mousepad_delta mousepad_draw
    by_cases hS : mp.sendname = symEmpty <;>
      by_cases hR : mp.receivename = symEmpty <;>
        simp [hS, hR]
  · intro mp a rest
    cases a <;> simp [mousepad_color]
  · intro rd mp nm
    unfold mousepad_send mousepad_change_io mousepad_draw
    by_cases hw : mp.sendname = symEmpty <;>
      by_cases hi : (if nm = s_ then symEmpty else nm) = symEmpty <;>
        simp [hw, hi, bne]
  · intro rd mp env nm
    constructor
    · unfold mousepad_receive mousepad_change_io mousepad_draw
      by_cases hw : mp.receivename = symEmpty <;>
        by_cases hi : rd (if nm = s_ then symEmpty else nm) = symEmpty <;>
          simp [hw, hi, bne]
    · unfold mousepad_receive
      by_cases hw : mp.receivename = symEmpty <;>
        by_cases hi : rd (if nm = s_ then symEmpty else nm) = symEmpty <;>
          simp [hw, hi, bne]

theorem claim_C6_mutators_amended_witness :
    (mousepad_resize mpSample true []).2 ≠ [] :=
  claim_C6_mutators_amended.1 mpSample []
